import Mathlib

/-!
Verification of the textual FST parser in `fst_lookup/__init__.py`.

The embedding follows the source closely:

* `Arc` mirrors the namedtuple `Arc(state, in_label, out_label, destination)`;
  its constructor is positional, exactly like the namedtuple's.
* `ParserState` mirrors the integer class attributes `INITIAL = 0`, ...,
  `END = 4`; the parser's `state` variable is an `Int`, as in Python.
* The sigma table is an insertion-ordered association list, mirroring a
  Python `dict` (updating an existing key keeps its position; new keys are
  appended; `del` removes the key).
* Python exceptions are modelled by the inductive `PErr`; the parser is a
  fold of `step` over the list of lines (`str.splitlines` is applied before
  this stage, so the input is a `List String`).
* `int(x)` on a whitespace-free token is modelled by `String.toInt?`
  (optional sign followed by digits); tokens produced by `str.split()`
  never contain whitespace.
-/

namespace FSTLookup

/-- Split a character list at every character satisfying `p`, keeping the
(possibly empty) pieces. -/
def splitAux (p : Char → Bool) : List Char → List Char → List (List Char)
  | [], acc => [acc.reverse]
  | c :: cs, acc =>
    if p c then acc.reverse :: splitAux p cs [] else splitAux p cs (c :: acc)

/-- Python `str.split()` with no arguments: split on runs of whitespace,
dropping empty pieces. -/
def pySplit (s : String) : List String :=
  ((splitAux Char.isWhitespace s.data []).filter (fun t => t ≠ [])).map String.mk

/-- Python `line.startswith('##')`. -/
def startsHH (s : String) : Bool :=
  match s.data with
  | '#' :: '#' :: _ => true
  | _ => false

/-- The decimal value of an ASCII digit. -/
def digitVal (c : Char) : Option Nat :=
  if c.toNat ≥ 48 ∧ c.toNat ≤ 57 then some (c.toNat - 48) else none

/-- Read a nonempty run of decimal digits; `none` on a non-digit or on an
empty run. -/
def digitsNat : List Char → Option Nat → Option Nat
  | [], acc => acc
  | c :: cs, acc =>
    match digitVal c, acc with
    | some d, some n => digitsNat cs (some (10 * n + d))
    | some d, none => digitsNat cs (some d)
    | none, _ => none

/-- Python `int(tok)` for a whitespace-free token: optional sign followed by
at least one digit, `none` on failure (Python raises `ValueError`). -/
def pyInt (s : String) : Option Int :=
  match s.data with
  | '-' :: rest => (digitsNat rest none).map (fun n => -(n : Int))
  | '+' :: rest => (digitsNat rest none).map (fun n => (n : Int))
  | cs => (digitsNat cs none).map (fun n => (n : Int))

/-- `tuple(int(x) for x in line.split())`, failing if any token is not an
integer. -/
def pyInts (toks : List String) : Option (List Int) :=
  toks.mapM pyInt

/-- A Python-`dict`-like association list: insertion ordered, unique keys by
construction. -/
abbrev Dict := List (Int × String)

/-- `d[k] = v`: replace the binding of `k` in place if present, else append. -/
def dictSet : Dict → Int → String → Dict
  | [], k, v => [(k, v)]
  | p :: d, k, v => if p.1 = k then (k, v) :: d else p :: dictSet d k v

/-- `d.get(k)` / `d[k]` lookup. -/
def dictLookup : Dict → Int → Option String
  | [], _ => none
  | p :: d, k => if p.1 = k then some p.2 else dictLookup d k

/-- `del d[k]` (minus the `KeyError`, which the caller checks). -/
def dictErase : Dict → Int → Dict
  | [], _ => []
  | p :: d, k => if p.1 = k then dictErase d k else p :: dictErase d k

/-- Python `set.add` on a list-backed set: no-op when already present. -/
def setAdd (l : List Int) (x : Int) : List Int :=
  if x ∈ l then l else l ++ [x]

/-- Insert one element into a list-backed set of arcs or states. -/
def listInsert {α : Type} [DecidableEq α] (l : List α) (x : α) : List α :=
  if x ∈ l then l else l ++ [x]

/-- `set(xs)`: deduplicate, keeping first occurrences. -/
def listDedup {α : Type} [DecidableEq α] (l : List α) : List α :=
  l.foldl listInsert []

/-- `a | b` on list-backed sets. -/
def listUnion {α : Type} [DecidableEq α] (a b : List α) : List α :=
  b.foldl listInsert a

/-- The namedtuple `Arc(state, in_label, out_label, destination)`.  Fields are
in the namedtuple's declared order; the constructor `Arc.mk` is positional,
exactly like the Python call `Arc(...)`. -/
structure Arc where
  state : Int
  in_label : Int
  out_label : Int
  destination : Int
deriving DecidableEq, Repr

/-- The integer constants of `class ParserState`. -/
def ParserState.INITIAL : Int := 0
/-- `ParserState.PROPS = 1`. -/
def ParserState.PROPS : Int := 1
/-- `ParserState.SIGMA = 2`. -/
def ParserState.SIGMA : Int := 2
/-- `ParserState.ARC = 3`. -/
def ParserState.ARC : Int := 3
/-- `ParserState.END = 4`. -/
def ParserState.END : Int := 4

/-- The Python exceptions `parse_text` can raise. -/
inductive PErr where
  /-- `KeyError` from the header-dispatch dict: unknown `##...##` payload. -/
  | unknownSection : PErr
  /-- `ValueError` from unpacking or `int()` on a sigma line. -/
  | malformedSymbol : PErr
  /-- `ValueError` from `int()` on a transition line, or the
  `UnboundLocalError` on an arity outside `{2,3,4,5}`. -/
  | malformedTransition : PErr
  /-- `ValueError('No implied state')`. -/
  | noImpliedState : PErr
  /-- `ValueError('Invalid state: ...')` — the defensive `else` branch. -/
  | invalidState : PErr
  /-- `AssertionError` from `assert state == ParserState.END`. -/
  | truncated : PErr
  /-- `KeyError` from `del sigma[0]` when the sigma section never bound 0. -/
  | missingEpsilon : PErr
deriving DecidableEq, Repr

/-- The mutable locals of one `parse_text` invocation. -/
structure PState where
  mode : Int
  sigma : Dict
  arcs : List Arc
  accepting_states : List Int
  implied_state : Option Int
deriving DecidableEq, Repr

/-- `state = ParserState.INITIAL` and the empty accumulators. -/
def initState : PState :=
  { mode := ParserState.INITIAL, sigma := [], arcs := [],
    accepting_states := [], implied_state := none }

/-- The closure `parse_arc(arc_def)`: appends an arc, records an accepting
state, or recognises the sentinel; mutates `implied_state`, `arcs`,
`accepting_states`.  Arc construction is the positional call
`Arc(src, dest, in_label, out_label)` from the source. -/
def parse_arc (arc_def : List Int) (st : PState) : Except PErr PState :=
  if arc_def = [-1, -1, -1, -1, -1] then
    -- Sentinel value: there are no more arcs to define.
    .ok st
  else
    match arc_def with
    | [in_label, dest] =>
      match st.implied_state with
      | none => .error .noImpliedState
      | some src =>
        let out_label := in_label
        .ok { st with implied_state := some src,
                      arcs := st.arcs ++ [Arc.mk src dest in_label out_label] }
    | [in_label, out_label, dest] =>
      match st.implied_state with
      | none => .error .noImpliedState
      | some src =>
        .ok { st with implied_state := some src,
                      arcs := st.arcs ++ [Arc.mk src dest in_label out_label] }
    | [src, in_label, dest, _weight] =>
      let out_label := in_label
      if in_label = -1 ∨ dest = -1 then
        -- This is an accepting state
        .ok { st with accepting_states := setAdd st.accepting_states src }
      else
        .ok { st with implied_state := some src,
                      arcs := st.arcs ++ [Arc.mk src dest in_label out_label] }
    | [src, in_label, out_label, dest, _weight] =>
      .ok { st with implied_state := some src,
                    arcs := st.arcs ++ [Arc.mk src dest in_label out_label] }
    | _ => .error .malformedTransition

/-- The header-dispatch dict `{'foma-net 1.0': INITIAL, ...}`. -/
def headerMode (header : String) : Option Int :=
  if header = "foma-net 1.0" then some ParserState.INITIAL
  else if header = "props" then some ParserState.PROPS
  else if header = "sigma" then some ParserState.SIGMA
  else if header = "states" then some ParserState.ARC
  else if header = "end" then some ParserState.END
  else none

/-- One iteration of the `for line in fst_text.splitlines()` loop. -/
def step (st : PState) (line : String) : Except PErr PState :=
  if startsHH line then
    match headerMode ((line.drop 2).dropRight 2) with
    | some m => .ok { st with mode := m }
    | none => .error .unknownSection
  else if st.mode = ParserState.SIGMA then
    match pySplit line with
    | [idx_str, symbol] =>
      match pyInt idx_str with
      | some idx => .ok { st with sigma := dictSet st.sigma idx symbol }
      | none => .error .malformedSymbol
    | _ => .error .malformedSymbol
  else if st.mode = ParserState.ARC then
    match pyInts (pySplit line) with
    | some arc_def => parse_arc arc_def st
    | none => .error .malformedTransition
  else if st.mode = ParserState.INITIAL ∨ st.mode = ParserState.PROPS ∨
          st.mode = ParserState.END then
    .ok st
  else
    .error .invalidState

/-- The whole loop: fold `step` over the lines, stopping at the first
exception. -/
def runLines (st : PState) : List String → Except PErr PState
  | [] => .ok st
  | l :: ls =>
    match step st l with
    | .ok st' => runLines st' ls
    | .error e => .error e

/-- The namedtuple `FSTParse`. -/
structure FSTParse where
  multichar_symbols : Dict
  graphemes : Dict
  arcs : List Arc
  intermediate_states : List Int
  accepting_states : List Int
deriving DecidableEq, Repr

/-- The property `FSTParse.sigma`: `{**multichar_symbols, **graphemes}`. -/
def FSTParse.sigma (p : FSTParse) : Dict :=
  p.graphemes.foldl (fun d q => dictSet d q.1 q.2) p.multichar_symbols

/-- The property `FSTParse.states`: `intermediate_states | accepting_states`. -/
def FSTParse.states (p : FSTParse) : List Int :=
  listUnion p.intermediate_states p.accepting_states

/-- Everything after the loop in `parse_text`: the `assert`, the epsilon
removal, the partition of sigma and the construction of the result. -/
def finishParse (st : PState) : Except PErr FSTParse :=
  if st.mode = ParserState.END then
    match dictLookup st.sigma 0 with
    | none => .error .missingEpsilon
    | some _ =>
      let sigma' := dictErase st.sigma 0
      .ok { multichar_symbols := sigma'.filter (fun p => p.2.length > 1),
            graphemes := sigma'.filter (fun p => p.2.length = 1),
            arcs := listDedup st.arcs,
            intermediate_states := listDedup (st.arcs.map Arc.state),
            accepting_states := st.accepting_states }
  else
    .error .truncated

/-- `parse_text`, taking the already-split list of lines. -/
def parse_text (lines : List String) : Except PErr FSTParse :=
  match runLines initState lines with
  | .ok st => finishParse st
  | .error e => .error e

/-! ### Test vectors used by the claims -/

/-- The end-to-end example input of spec §8: sigma `{0:ε, 97:a, 98:b}` and
transition lines `0 97 0 1 0`, `1 -1 -1 1`, sentinel, `##end##`. -/
def exampleInput : List String :=
  [ "##foma-net 1.0##", "##props##", "##sigma##",
    "0 @_EPSILON_SYMBOL_@", "97 a", "98 b",
    "##states##", "0 97 0 1 0", "1 -1 -1 1", "-1 -1 -1 -1 -1", "##end##" ]

/-- An input with a single full 5-field transition `0 97 98 5 0` whose
destination state 5 is neither a source nor accepting. -/
def skewInput : List String :=
  [ "##foma-net 1.0##", "##sigma##", "0 e", "97 a",
    "##states##", "0 97 98 5 0", "##end##" ]

/-- An input whose sigma section binds id 201 twice: first to `X`, then `Y`. -/
def dupSigmaInput : List String :=
  [ "##foma-net 1.0##", "##sigma##", "0 e", "201 X", "201 Y", "##end##" ]

/-- An input with a single 5-field transition `0 97 98 1 0` with distinct
input label, output label and destination. -/
def distinctInput : List String :=
  [ "##foma-net 1.0##", "##sigma##", "0 e", "97 a",
    "##states##", "0 97 98 1 0", "##end##" ]

/-- What `parse_text` returns on `exampleInput`. -/
def exampleResult : FSTParse :=
  { multichar_symbols := [], graphemes := [(97, "a"), (98, "b")],
    arcs := [Arc.mk 0 1 97 0], intermediate_states := [0],
    accepting_states := [1] }

/-- What `parse_text` returns on `skewInput`. -/
def skewResult : FSTParse :=
  { multichar_symbols := [], graphemes := [(97, "a")],
    arcs := [Arc.mk 0 5 97 98], intermediate_states := [0],
    accepting_states := [] }

/-- What `parse_text` returns on `dupSigmaInput`. -/
def dupSigmaResult : FSTParse :=
  { multichar_symbols := [], graphemes := [(201, "Y")],
    arcs := [], intermediate_states := [], accepting_states := [] }

/-! ### Generic lemmas about the list-backed sets -/

theorem mem_listInsert {α : Type} [DecidableEq α] (l : List α) (x y : α) :
    y ∈ listInsert l x ↔ y ∈ l ∨ y = x := by
  unfold listInsert
  by_cases h : x ∈ l
  · rw [if_pos h]
    constructor
    · exact Or.inl
    · rintro (hy | rfl)
      · exact hy
      · exact h
  · rw [if_neg h]
    simp [List.mem_append]

theorem mem_foldl_listInsert {α : Type} [DecidableEq α] (l : List α) :
    ∀ (acc : List α) (y : α), y ∈ l.foldl listInsert acc ↔ y ∈ acc ∨ y ∈ l := by
  induction l with
  | nil => intro acc y; simp
  | cons a l ih =>
    intro acc y
    rw [List.foldl_cons, ih, mem_listInsert]
    simp [List.mem_cons]
    tauto

theorem mem_listDedup {α : Type} [DecidableEq α] (l : List α) (y : α) :
    y ∈ listDedup l ↔ y ∈ l := by
  unfold listDedup
  rw [mem_foldl_listInsert]
  simp

theorem mem_listUnion {α : Type} [DecidableEq α] (a b : List α) (y : α) :
    y ∈ listUnion a b ↔ y ∈ a ∨ y ∈ b := by
  unfold listUnion
  exact mem_foldl_listInsert b a y

/-! ### Generic lemmas about the dict operations -/

theorem dictLookup_dictSet_self (d : Dict) (k : Int) (v : String) :
    dictLookup (dictSet d k v) k = some v := by
  induction d with
  | nil => simp [dictSet, dictLookup]
  | cons p d ih =>
    by_cases h : p.1 = k
    · simp [dictSet, dictLookup, h]
    · simp [dictSet, dictLookup, h, ih]

theorem dictLookup_dictSet_other (d : Dict) (k j : Int) (v : String)
    (h : j ≠ k) : dictLookup (dictSet d k v) j = dictLookup d j := by
  induction d with
  | nil => simp [dictSet, dictLookup, Ne.symm h]
  | cons p d ih =>
    by_cases hp : p.1 = k
    · simp [dictSet, dictLookup, hp, Ne.symm h]
    · simp [dictSet, dictLookup, hp, ih]

/-! ### Structural lemmas about the parser -/

theorem runLines_append (xs ys : List String) (st : PState) :
    runLines st (xs ++ ys) =
      match runLines st xs with
      | .ok st' => runLines st' ys
      | .error e => .error e := by
  induction xs generalizing st with
  | nil => simp [runLines]
  | cons l xs ih =>
    rw [List.cons_append]
    cases hs : step st l with
    | ok st' =>
      have e1 : runLines st (l :: (xs ++ ys)) = runLines st' (xs ++ ys) := by
        simp [runLines, hs]
      have e2 : runLines st (l :: xs) = runLines st' xs := by
        simp [runLines, hs]
      rw [e1, e2]
      exact ih st'
    | error e =>
      have e1 : runLines st (l :: (xs ++ ys)) = .error e := by
        simp [runLines, hs]
      have e2 : runLines st (l :: xs) = .error e := by
        simp [runLines, hs]
      rw [e1, e2]

theorem parse_text_ok (lines : List String) (r : FSTParse)
    (h : parse_text lines = .ok r) :
    ∃ st, runLines initState lines = .ok st ∧ finishParse st = .ok r := by
  unfold parse_text at h
  cases hrun : runLines initState lines with
  | ok st =>
    rw [hrun] at h
    exact ⟨st, rfl, h⟩
  | error e =>
    rw [hrun] at h
    cases h

theorem finishParse_ok (st : PState) (r : FSTParse)
    (h : finishParse st = .ok r) :
    r.arcs = listDedup st.arcs ∧
    r.intermediate_states = listDedup (st.arcs.map Arc.state) ∧
    r.accepting_states = st.accepting_states := by
  unfold finishParse at h
  split at h
  · split at h
    · cases h
    · cases h
      exact ⟨rfl, rfl, rfl⟩
  · cases h

/-- The parser mode is one of the five `ParserState` constants. -/
def goodMode (m : Int) : Prop :=
  m = ParserState.INITIAL ∨ m = ParserState.PROPS ∨ m = ParserState.SIGMA ∨
  m = ParserState.ARC ∨ m = ParserState.END

theorem headerMode_good (s : String) (m : Int) (h : headerMode s = some m) :
    goodMode m := by
  unfold headerMode at h
  split_ifs at h <;> simp_all [goodMode, ParserState.INITIAL, ParserState.PROPS,
    ParserState.SIGMA, ParserState.ARC, ParserState.END]

theorem parse_arc_mode (arc_def : List Int) (st st' : PState)
    (h : parse_arc arc_def st = .ok st') : st'.mode = st.mode := by
  unfold parse_arc at h
  split at h
  · cases h; rfl
  · split at h
    · split at h
      · cases h
      · cases h; rfl
    · split at h
      · cases h
      · cases h; rfl
    · split at h
      · cases h; rfl
      · cases h; rfl
    · cases h; rfl
    · cases h

theorem parse_arc_ne_invalid (arc_def : List Int) (st : PState) :
    parse_arc arc_def st ≠ .error .invalidState := by
  unfold parse_arc
  split
  · simp
  · split
    · split <;> simp
    · split <;> simp
    · split <;> simp
    · simp
    · simp

theorem step_good (st : PState) (l : String) (hg : goodMode st.mode) :
    (∀ st', step st l = .ok st' → goodMode st'.mode) ∧
    step st l ≠ .error .invalidState := by
  unfold step
  by_cases hh : startsHH l = true
  · rw [if_pos hh]
    cases hm : headerMode ((l.drop 2).dropRight 2) with
    | some m =>
      refine ⟨fun st' h => ?_, by simp⟩
      cases h
      exact headerMode_good _ _ hm
    | none => exact ⟨(fun st' h => by cases h), (by simp)⟩
  · rw [if_neg hh]
    by_cases h2 : st.mode = ParserState.SIGMA
    · rw [if_pos h2]
      constructor
      · intro st' h
        split at h
        · split at h
          · cases h; exact hg
          · cases h
        · cases h
      · split
        · split <;> simp
        · simp
    · rw [if_neg h2]
      by_cases h3 : st.mode = ParserState.ARC
      · rw [if_pos h3]
        cases hi : pyInts (pySplit l) with
        | some arc_def =>
          refine ⟨fun st' h => ?_, parse_arc_ne_invalid arc_def st⟩
          rw [parse_arc_mode arc_def st st' h]
          exact hg
        | none => exact ⟨(fun st' h => by cases h), (by simp)⟩
      · have h4 : st.mode = ParserState.INITIAL ∨ st.mode = ParserState.PROPS ∨
            st.mode = ParserState.END := by
          rcases hg with h | h | h | h | h
          · exact Or.inl h
          · exact Or.inr (Or.inl h)
          · exact absurd h h2
          · exact absurd h h3
          · exact Or.inr (Or.inr h)
        rw [if_neg h3, if_pos h4]
        exact ⟨(fun st' h => by cases h; exact hg), (by simp)⟩

theorem runLines_good (ls : List String) (st : PState) (hg : goodMode st.mode) :
    (∀ st', runLines st ls = .ok st' → goodMode st'.mode) ∧
    runLines st ls ≠ .error .invalidState := by
  induction ls generalizing st with
  | nil =>
    refine ⟨fun st' h => ?_, by simp [runLines]⟩
    cases h
    exact hg
  | cons l ls ih =>
    cases hs : step st l with
    | ok st1 =>
      have hg1 : goodMode st1.mode := (step_good st l hg).1 st1 hs
      have e1 : runLines st (l :: ls) = runLines st1 ls := by simp [runLines, hs]
      rw [e1]
      exact ih st1 hg1
    | error e =>
      have hne : e ≠ .invalidState := by
        intro hcon
        exact (step_good st l hg).2 (hcon ▸ hs)
      have e1 : runLines st (l :: ls) = .error e := by simp [runLines, hs]
      rw [e1]
      exact ⟨(fun st' h => by cases h), (by simpa using hne)⟩

theorem initState_good : goodMode initState.mode :=
  Or.inl rfl

/-- In `ARC` mode, the sentinel line is a no-op for the parser state. -/
theorem step_sentinel (st : PState) (h : st.mode = ParserState.ARC) :
    step st "-1 -1 -1 -1 -1" = .ok st := by
  have h1 : startsHH "-1 -1 -1 -1 -1" = false := by decide
  have h2 : pyInts (pySplit "-1 -1 -1 -1 -1") = some [-1, -1, -1, -1, -1] := by
    decide
  simp [step, h1, h, ParserState.SIGMA, ParserState.ARC, h2, parse_arc]

/-- Any run of sentinel lines in `ARC` mode is a no-op. -/
theorem runLines_sentinels (n : Nat) (post : List String) (st : PState)
    (h : st.mode = ParserState.ARC) :
    runLines st (List.replicate n "-1 -1 -1 -1 -1" ++ post) =
      runLines st post := by
  induction n with
  | zero => rfl
  | succ n ih =>
    rw [List.replicate_succ, List.cons_append]
    simp [runLines, step_sentinel st h, ih]

/-! ### Claims -/

/-- Claim C1: a 5-field non-sentinel transition line `(src, in_label,
out_label, dest, weight)` should append a transition whose accessors return
`src`, `in_label`, `out_label`, `dest` respectively.  The code constructs
`Arc(src, dest, in_label, out_label)` positionally against the field order
`(state, in_label, out_label, destination)`, so on the line `0 97 98 1 0` the
appended arc's `in_label` accessor returns the destination 1, its `out_label`
accessor returns the input label 97, and its `destination` accessor returns
the output label 98 — only the `state` accessor is right. -/
theorem c1_five_field_accessors_swapped :
    parse_text distinctInput =
      .ok { multichar_symbols := [], graphemes := [(97, "a")],
            arcs := [Arc.mk 0 1 97 98], intermediate_states := [0],
            accepting_states := [] } ∧
    (Arc.mk 0 1 97 98).state = 0 ∧
    (Arc.mk 0 1 97 98).in_label = 1 ∧ (Arc.mk 0 1 97 98).in_label ≠ 97 ∧
    (Arc.mk 0 1 97 98).out_label = 97 ∧ (Arc.mk 0 1 97 98).out_label ≠ 98 ∧
    (Arc.mk 0 1 97 98).destination = 98 ∧
    (Arc.mk 0 1 97 98).destination ≠ 1 :=
  ⟨rfl, rfl, rfl, (by decide), rfl, (by decide), rfl, (by decide)⟩

/-- Claim C2, counterexample: on the spec's end-to-end example input the
parse succeeds, but the unique transition does not satisfy the claimed
shape — its `destination` accessor returns 0 (not 1) and its `in_label`
accessor holds 1, which does not resolve to the symbol `a`. -/
theorem c2_example_counterexample :
    parse_text exampleInput = .ok exampleResult ∧
    exampleResult.arcs = [Arc.mk 0 1 97 0] ∧
    (Arc.mk 0 1 97 0).destination ≠ 1 ∧
    dictLookup exampleResult.sigma (Arc.mk 0 1 97 0).in_label ≠ some "a" :=
  ⟨rfl, rfl, (by decide), (by decide)⟩

/-- Claim C2, amended: on the example input the parse succeeds with state
set `{0, 1}`, accepting set `{1}`, grapheme partition `{a, b}`, no multichar
symbols, and exactly one transition; that transition's stored fields are
`state = 0`, `in_label = 1`, `out_label = 97` (the id of `a`) and
`destination = 0` — the record `(src 0, in 97, out 0, dest 1)` permuted by
the positional `Arc(src, dest, in_label, out_label)` construction. -/
theorem c2_example_amended :
    parse_text exampleInput = .ok exampleResult ∧
    exampleResult.states = [0, 1] ∧
    exampleResult.arcs = [Arc.mk 0 1 97 0] ∧
    (Arc.mk 0 1 97 0).state = 0 ∧ (Arc.mk 0 1 97 0).in_label = 1 ∧
    (Arc.mk 0 1 97 0).out_label = 97 ∧ (Arc.mk 0 1 97 0).destination = 0 ∧
    exampleResult.accepting_states = [1] ∧
    exampleResult.graphemes = [(97, "a"), (98, "b")] ∧
    exampleResult.multichar_symbols = [] :=
  ⟨rfl, (by decide), rfl, rfl, rfl, rfl, rfl, rfl, rfl, rfl⟩

/-- Claim C3, counterexample: on `skewInput` the parse succeeds and its
single transition's `destination_state` accessor returns 98 (the record's
output label), which is not a member of the returned state set `{0}`. -/
theorem c3_destination_counterexample :
    parse_text skewInput = .ok skewResult ∧
    Arc.mk 0 5 97 98 ∈ skewResult.arcs ∧
    (Arc.mk 0 5 97 98).destination ∉ skewResult.states :=
  ⟨rfl, (by decide), (by decide)⟩

/-- Claim C3, amended: for every input on which parse succeeds, every
returned transition's source-state accessor (`state`) is a member of the
returned state set; the `destination` accessor need not be. -/
theorem c3_amended_source_in_states (lines : List String) (r : FSTParse)
    (h : parse_text lines = .ok r) (a : Arc) (ha : a ∈ r.arcs) :
    a.state ∈ r.states := by
  obtain ⟨st, _hrun, hfin⟩ := parse_text_ok lines r h
  obtain ⟨harcs, hinter, _hacc⟩ := finishParse_ok st r hfin
  rw [harcs, mem_listDedup] at ha
  unfold FSTParse.states
  rw [mem_listUnion]
  left
  rw [hinter, mem_listDedup]
  exact List.mem_map_of_mem Arc.state ha

/-- Witness for the amended C3, at the concrete input `skewInput`. -/
theorem c3_amended_witness :
    parse_text skewInput = .ok skewResult ∧
    (Arc.mk 0 5 97 98).state ∈ skewResult.states :=
  ⟨rfl, c3_amended_source_in_states skewInput skewResult rfl
    (Arc.mk 0 5 97 98) (by decide)⟩

/-- Claim C4: for every input on which parse succeeds, the returned state
set is exactly the union of the source states of the returned transitions
and the returned accepting states — so an accepting state with no outgoing
transition is still a state. -/
theorem c4_states_union (lines : List String) (r : FSTParse)
    (h : parse_text lines = .ok r) (s : Int) :
    s ∈ r.states ↔ (∃ a ∈ r.arcs, a.state = s) ∨ s ∈ r.accepting_states := by
  obtain ⟨st, _hrun, hfin⟩ := parse_text_ok lines r h
  obtain ⟨harcs, hinter, hacc⟩ := finishParse_ok st r hfin
  unfold FSTParse.states
  rw [mem_listUnion, hinter, hacc, mem_listDedup, List.mem_map, harcs]
  constructor
  · rintro (⟨a, ha, hs⟩ | hs)
    · exact Or.inl ⟨a, (mem_listDedup _ _).mpr ha, hs⟩
    · exact Or.inr hs
  · rintro (⟨a, ha, hs⟩ | hs)
    · exact Or.inl ⟨a, (mem_listDedup _ _).mp ha, hs⟩
    · exact Or.inr hs

/-- Witness for C4: on the example input, the accepting state 1 has no
outgoing transition yet is a member of the state set. -/
theorem c4_witness : (1 : Int) ∈ exampleResult.states :=
  (c4_states_union exampleInput exampleResult rfl 1).mpr (Or.inr (by decide))

/-- Claim C5: with no implied state, a 2-field or 3-field line fails with
the no-implied-state error; right after a transition-creating 4-field line
`(S, i, d, w)` (with `i ≠ -1` and `d ≠ -1`) or 5-field line
`(S, i, o, d, w)` (with `i ≠ -1`, hence not the sentinel), the same line
succeeds and the appended transition's source-state accessor returns `S`. -/
theorem c5_implied_state (st : PState) (h : st.implied_state = none)
    (a b c S i o d w : Int) (hi : i ≠ -1) (hd : d ≠ -1) :
    parse_arc [a, b] st = .error .noImpliedState ∧
    parse_arc [a, b, c] st = .error .noImpliedState ∧
    parse_arc [S, i, d, w] st =
      .ok { st with implied_state := some S,
                    arcs := st.arcs ++ [Arc.mk S d i i] } ∧
    parse_arc [a, b]
        { st with implied_state := some S,
                  arcs := st.arcs ++ [Arc.mk S d i i] } =
      .ok { st with implied_state := some S,
                    arcs := st.arcs ++ [Arc.mk S d i i] ++ [Arc.mk S b a a] } ∧
    (Arc.mk S b a a).state = S ∧
    parse_arc [S, i, o, d, w] st =
      .ok { st with implied_state := some S,
                    arcs := st.arcs ++ [Arc.mk S d i o] } ∧
    parse_arc [a, b, c]
        { st with implied_state := some S,
                  arcs := st.arcs ++ [Arc.mk S d i o] } =
      .ok { st with implied_state := some S,
                    arcs := st.arcs ++ [Arc.mk S d i o] ++ [Arc.mk S c a b] } ∧
    (Arc.mk S c a b).state = S := by
  refine ⟨?_, ?_, ?_, ?_, rfl, ?_, ?_, rfl⟩
  · simp [parse_arc, h]
  · simp [parse_arc, h]
  · simp [parse_arc, hi, hd]
  · simp [parse_arc]
  · simp [parse_arc, hi]
  · simp [parse_arc]

/-- Witness for C5 at the empty initial state and the concrete records
`(7, 8)`, `(7, 8, 9)`, `(3, 4, 6, 0)` and `(3, 4, 5, 6, 0)`. -/
theorem c5_witness :
    parse_arc [7, 8] initState = .error .noImpliedState ∧
    parse_arc [7, 8, 9] initState = .error .noImpliedState ∧
    parse_arc [3, 4, 6, 0] initState =
      .ok { initState with implied_state := some 3,
                           arcs := initState.arcs ++ [Arc.mk 3 6 4 4] } ∧
    parse_arc [7, 8]
        { initState with implied_state := some 3,
                         arcs := initState.arcs ++ [Arc.mk 3 6 4 4] } =
      .ok { initState with implied_state := some 3,
                           arcs := initState.arcs ++ [Arc.mk 3 6 4 4] ++
                                   [Arc.mk 3 8 7 7] } ∧
    (Arc.mk 3 8 7 7).state = 3 ∧
    parse_arc [3, 4, 5, 6, 0] initState =
      .ok { initState with implied_state := some 3,
                           arcs := initState.arcs ++ [Arc.mk 3 6 4 5] } ∧
    parse_arc [7, 8, 9]
        { initState with implied_state := some 3,
                         arcs := initState.arcs ++ [Arc.mk 3 6 4 5] } =
      .ok { initState with implied_state := some 3,
                           arcs := initState.arcs ++ [Arc.mk 3 6 4 5] ++
                                   [Arc.mk 3 9 7 8] } ∧
    (Arc.mk 3 9 7 8).state = 3 :=
  c5_implied_state initState rfl 7 8 9 3 4 5 6 0 (by decide) (by decide)

/-- Claim C6: the sentinel record `(-1,-1,-1,-1,-1)` leaves the decoder
state (transitions, accepting states, implied state) completely unchanged,
and inserting any number of sentinel lines at a point of the transition
section where the parser is in `ARC` mode does not change the result of
`parse_text`. -/
theorem c6_sentinel_noop (st : PState) (hst : st.mode = ParserState.ARC)
    (pre post : List String) (st0 : PState) (n : Nat)
    (hpre : runLines initState pre = .ok st0)
    (hmode : st0.mode = ParserState.ARC) :
    parse_arc [-1, -1, -1, -1, -1] st = .ok st ∧
    step st "-1 -1 -1 -1 -1" = .ok st ∧
    parse_text (pre ++ (List.replicate n "-1 -1 -1 -1 -1" ++ post)) =
      parse_text (pre ++ post) := by
  refine ⟨rfl, step_sentinel st hst, ?_⟩
  have e1 : runLines initState (pre ++ (List.replicate n "-1 -1 -1 -1 -1" ++ post)) =
      runLines st0 (List.replicate n "-1 -1 -1 -1 -1" ++ post) := by
    rw [runLines_append, hpre]
  have e2 : runLines initState (pre ++ post) = runLines st0 post := by
    rw [runLines_append, hpre]
  unfold parse_text
  rw [e1, e2, runLines_sentinels n post st0 hmode]

/-- Witness for C6: two sentinel lines inserted after `##states##` leave the
parse unchanged. -/
theorem c6_witness :
    parse_arc [-1, -1, -1, -1, -1]
        (PState.mk ParserState.ARC [] [] [] none) =
      .ok (PState.mk ParserState.ARC [] [] [] none) ∧
    step (PState.mk ParserState.ARC [] [] [] none) "-1 -1 -1 -1 -1" =
      .ok (PState.mk ParserState.ARC [] [] [] none) ∧
    parse_text (["##foma-net 1.0##", "##states##"] ++
        (List.replicate 2 "-1 -1 -1 -1 -1" ++ ["##end##"])) =
      parse_text (["##foma-net 1.0##", "##states##"] ++ ["##end##"]) :=
  c6_sentinel_noop (PState.mk ParserState.ARC [] [] [] none) rfl
    ["##foma-net 1.0##", "##states##"] ["##end##"]
    (PState.mk ParserState.ARC [] [] [] none) 2 rfl rfl

/-- Claim C7: if consuming the whole input leaves the parser in a mode other
than `END`, `parse_text` fails with the truncated-input error (the
`assert state == ParserState.END`) and returns no result. -/
theorem c7_truncated (lines : List String) (st : PState)
    (h : runLines initState lines = .ok st)
    (hm : st.mode ≠ ParserState.END) :
    parse_text lines = .error .truncated := by
  unfold parse_text
  rw [h]
  show finishParse st = .error .truncated
  unfold finishParse
  rw [if_neg hm]

/-- Witness for C7: an input with no `##end##` line. -/
theorem c7_witness : parse_text ["##foma-net 1.0##"] = .error .truncated :=
  c7_truncated ["##foma-net 1.0##"] initState rfl (by decide)

/-- Claim C8: a sigma line rebinding an already-bound id silently overwrites
it — after `201 X` then `201 Y` the table maps 201 to `Y` and the `X`
binding is gone — and on the concrete duplicate-id input the successful
parse maps 201 to `Y` only. -/
theorem c8_dup_sigma_last_wins (st : PState) (h : st.mode = ParserState.SIGMA) :
    step st "201 X" = .ok { st with sigma := dictSet st.sigma 201 "X" } ∧
    dictLookup (dictSet st.sigma 201 "X") 201 = some "X" ∧
    step { st with sigma := dictSet st.sigma 201 "X" } "201 Y" =
      .ok { st with sigma := dictSet (dictSet st.sigma 201 "X") 201 "Y" } ∧
    dictLookup (dictSet (dictSet st.sigma 201 "X") 201 "Y") 201 = some "Y" ∧
    parse_text dupSigmaInput = .ok dupSigmaResult ∧
    dictLookup dupSigmaResult.sigma 201 = some "Y" := by
  have h1 : startsHH "201 X" = false := by decide
  have h1' : startsHH "201 Y" = false := by decide
  have h2 : pySplit "201 X" = ["201", "X"] := by decide
  have h2' : pySplit "201 Y" = ["201", "Y"] := by decide
  have h3 : pyInt "201" = some 201 := by decide
  refine ⟨?_, dictLookup_dictSet_self _ _ _, ?_, dictLookup_dictSet_self _ _ _,
    rfl, rfl⟩
  · simp [step, h, h1, h2, h3]
  · simp [step, h, h1', h2', h3]

/-- Witness for C8 at the empty sigma table. -/
theorem c8_witness :
    step (PState.mk ParserState.SIGMA [] [] [] none) "201 X" =
      .ok (PState.mk ParserState.SIGMA [(201, "X")] [] [] none) ∧
    dictLookup [(201, "X")] 201 = some "X" ∧
    step (PState.mk ParserState.SIGMA [(201, "X")] [] [] none) "201 Y" =
      .ok (PState.mk ParserState.SIGMA [(201, "Y")] [] [] none) ∧
    dictLookup [(201, "Y")] 201 = some "Y" ∧
    parse_text dupSigmaInput = .ok dupSigmaResult ∧
    dictLookup dupSigmaResult.sigma 201 = some "Y" :=
  c8_dup_sigma_last_wins (PState.mk ParserState.SIGMA [] [] [] none) rfl

/-- Claim C9: when the input is otherwise well formed (the fold over the
lines succeeds and ends in `END` mode) but the sigma section never bound id
0, `parse_text` fails — the unconditional `del sigma[0]` raises `KeyError` —
and returns no result. -/
theorem c9_missing_epsilon (lines : List String) (st : PState)
    (h : runLines initState lines = .ok st)
    (hm : st.mode = ParserState.END)
    (hs : dictLookup st.sigma 0 = none) :
    parse_text lines = .error .missingEpsilon := by
  unfold parse_text
  rw [h]
  show finishParse st = .error .missingEpsilon
  unfold finishParse
  rw [if_pos hm, hs]

/-- Witness for C9: a structurally complete input whose sigma section is
empty. -/
theorem c9_witness :
    parse_text ["##foma-net 1.0##", "##end##"] = .error .missingEpsilon :=
  c9_missing_epsilon ["##foma-net 1.0##", "##end##"]
    (PState.mk ParserState.END [] [] [] none) rfl rfl rfl

/-- Claim C10: every state reachable by the line loop has one of the five
`ParserState` mode values, the defensive invalid-mode branch can never fire
on the next line, and no run of the parser ever produces the invalid-state
error. -/
theorem c10_mode_always_valid (lines lines2 : List String) (l : String)
    (st : PState) (h : runLines initState lines = .ok st) :
    (st.mode = ParserState.INITIAL ∨ st.mode = ParserState.PROPS ∨
     st.mode = ParserState.SIGMA ∨ st.mode = ParserState.ARC ∨
     st.mode = ParserState.END) ∧
    step st l ≠ .error .invalidState ∧
    runLines initState lines2 ≠ .error .invalidState ∧
    parse_text lines2 ≠ .error .invalidState := by
  have hg : goodMode st.mode :=
    (runLines_good lines initState initState_good).1 st h
  refine ⟨hg, (step_good st l hg).2,
    (runLines_good lines2 initState initState_good).2, ?_⟩
  unfold parse_text
  cases hr : runLines initState lines2 with
  | ok st2 =>
    show finishParse st2 ≠ .error .invalidState
    unfold finishParse
    split
    · split <;> simp
    · simp
  | error e =>
    have hne : e ≠ .invalidState := by
      intro hcon
      exact (runLines_good lines2 initState initState_good).2 (hcon ▸ hr)
    simpa using hne

/-- Witness for C10 after the line `##sigma##`, probing with a sigma line
and a second, complete input. -/
theorem c10_witness :
    (ParserState.SIGMA = ParserState.INITIAL ∨
     ParserState.SIGMA = ParserState.PROPS ∨
     ParserState.SIGMA = ParserState.SIGMA ∨
     ParserState.SIGMA = ParserState.ARC ∨
     ParserState.SIGMA = ParserState.END) ∧
    step (PState.mk ParserState.SIGMA [] [] [] none) "0 a" ≠
      .error .invalidState ∧
    runLines initState ["##props##", "metadata"] ≠ .error .invalidState ∧
    parse_text ["##props##", "metadata"] ≠ .error .invalidState :=
  c10_mode_always_valid ["##sigma##"] ["##props##", "metadata"] "0 a"
    (PState.mk ParserState.SIGMA [] [] [] none) rfl

end FSTLookup
